import Mathlib

/-!
Shallow embedding of the aoe4-coach backend core (src/backend/aoe4world_client.py,
src/backend/aoe4_data.py, src/backend/main.py) and proofs about it.

Raw upstream payloads are dynamically typed Python/JSON values; we embed them as
the inductive `JVal`.  Python `dict`s are association lists with unique keys in
insertion order; numbers are embedded as integers (all values relevant to the
verified claims are integers); `str()`-rendering of containers is abstracted
since no verified claim compares a container's string form.
-/

/-- A Python/JSON runtime value as seen by the backend's parsing code. -/
inductive JVal where
  | null : JVal
  | bool : Bool → JVal
  | num : Int → JVal
  | str : String → JVal
  | arr : List JVal → JVal
  | obj : List (String × JVal) → JVal
deriving Repr

/-- A Python dict (string-keyed), as an insertion-ordered association list. -/
abbrev Jobj := List (String × JVal)

namespace JVal

/-- Structural equality test for `JVal`, mirroring Python `==` on JSON data.
(Python's `True == 1` numeric coincidence is not modelled; no claim involves
boolean-valued fields.) -/
def beq : JVal → JVal → Bool
  | .null, .null => true
  | .bool a, .bool b => a = b
  | .num a, .num b => a = b
  | .str a, .str b => a = b
  | .arr a, .arr b => beqList a b
  | .obj a, .obj b => beqObj a b
  | _, _ => false
where
  beqList : List JVal → List JVal → Bool
    | [], [] => true
    | x :: xs, y :: ys => beq x y && beqList xs ys
    | _, _ => false
  beqObj : List (String × JVal) → List (String × JVal) → Bool
    | [], [] => true
    | (k, v) :: xs, (l, w) :: ys => k = l && beq v w && beqObj xs ys
    | _, _ => false

instance : BEq JVal := ⟨beq⟩

/-- Python truthiness (`bool(v)`) for the embedded values. -/
def pyTruthy : JVal → Bool
  | .null => false
  | .bool b => b
  | .num n => n ≠ 0
  | .str s => s ≠ ""
  | .arr xs => !xs.isEmpty
  | .obj kvs => !kvs.isEmpty

/-- Python `str(v)`.  Containers are abstracted (no verified claim compares the
string form of a list or dict). -/
def pyStr : JVal → String
  | .null => "None"
  | .bool b => if b then "True" else "False"
  | .num n => toString n
  | .str s => s
  | .arr _ => "<list-repr>"
  | .obj _ => "<dict-repr>"

end JVal

/-- Python `d.get(k)`: the first (unique) binding for `k`, if any. -/
def jlookup : Jobj → String → Option JVal
  | [], _ => none
  | (k, v) :: rest, key => if k = key then some v else jlookup rest key

/-- Python `d.get(k, default)`: note the default is used only when the key is
absent; a stored `None` is returned as `None`. -/
def pyGet (kvs : Jobj) (key : String) (dflt : JVal) : JVal :=
  (jlookup kvs key).getD dflt

/-- Python `str(d.get(k))`, where a missing key reads as `None`. -/
def pyStrGet (kvs : Jobj) (key : String) : String :=
  JVal.pyStr ((jlookup kvs key).getD .null)

/-- Python `for x in v`: lists iterate elements, dicts iterate keys, strings
iterate one-character strings; other values raise `TypeError` (modelled as
`.error ()`). -/
def pyIter : JVal → Except Unit (List JVal)
  | .arr xs => .ok xs
  | .obj kvs => .ok (kvs.map fun kv => .str kv.1)
  | .str s => .ok (s.toList.map fun c => .str (String.singleton c))
  | _ => .error ()

/-! ## src/backend/aoe4_data.py — Entity Catalog -/

/-- One catalog entry (`EntityData` dataclass).  Only fields used by the
verified claims are given precise types; `civs`/`age` hold raw values. -/
structure EntityData where
  pbgid : JVal
  name : String
  base_id : String
  entity_type : String
  civs : JVal
  age : JVal
deriving Repr

/-- The `AoE4DataLookup._pbgid_to_entity` dict: keys are the (non-null) raw
`"pbgid"` values of the loaded items, in insertion order.  The network `load()`
path is I/O and is not embedded; all claims quantify over an arbitrary
catalog state. -/
abbrev Catalog := List (JVal × EntityData)

/-- `self._pbgid_to_entity.get(pbgid)`. -/
def lookupEntity : Catalog → JVal → Option EntityData
  | [], _ => none
  | (k, e) :: rest, pbgid => if JVal.beq k pbgid then some e else lookupEntity rest pbgid

/-- `AoE4DataLookup.get_name(pbgid, fallback)`: catalog name when present,
else `fallback or f"Unknown ({pbgid})"` — note Python `or` treats the empty
string like `None`. -/
def get_name (cat : Catalog) (pbgid : JVal) (fallback : Option String) : String :=
  match lookupEntity cat pbgid with
  | some e => e.name
  | none =>
    match fallback with
    | some s => if s = "" then "Unknown (" ++ JVal.pyStr pbgid ++ ")" else s
    | none => "Unknown (" ++ JVal.pyStr pbgid ++ ")"

/-- Python `s.split(sep)` for a single-character separator, over the
character list: keeps empty pieces and yields `[""]` for the empty string. -/
def splitOnChar (sep : Char) : List Char → List (List Char)
  | [] => [[]]
  | c :: rest =>
    match splitOnChar sep rest with
    | [] => if c = sep then [[], []] else [[c]]
    | piece :: pieces =>
      if c = sep then [] :: piece :: pieces else (c :: piece) :: pieces

/-- `icon.split("/")[-1].replace("_", " ")` — both the separator and the
replaced pattern are single characters, so the replacement is a per-character
map. -/
def iconSlug (icon : String) : String :=
  String.mk (((splitOnChar '/' icon.toList).getLastD []).map
    fun c => if c = '_' then ' ' else c)

/-- Python `d[k] = v`: replace the value in place if the key exists, else
append the binding. -/
def setKey : Jobj → String → JVal → Jobj
  | [], k, v => [(k, v)]
  | (k', v') :: rest, k, v =>
    if k' = k then (k, v) :: rest else (k', v') :: setKey rest k v

/-- The body of the `enrich_build_order` loop for one item.  A truthy
non-string `"icon"` value would raise `AttributeError` in Python
(`icon.split` on a non-string); that uncaught exception is modelled as
`.error ()`. -/
def enrichItem (cat : Catalog) (item : Jobj) : Except Unit Jobj := do
  let pbgid := (jlookup item "pbgid").getD .null
  if JVal.pyTruthy pbgid then
    let icon := pyGet item "icon" (.str "")
    let icon_name : Option String ←
      if JVal.pyTruthy icon then
        match icon with
        | .str s => pure (some (iconSlug s))
        | _ => throw ()
      else
        pure none
    pure (setKey item "name" (.str (get_name cat pbgid icon_name)))
  else
    let icon := pyGet item "icon" (.str "")
    let name : String ←
      if JVal.pyTruthy icon then
        match icon with
        | .str s => pure (iconSlug s)
        | _ => throw ()
      else
        pure "Unknown"
    pure (setKey item "name" (.str name))

/-- `AoE4DataLookup.enrich_build_order(build_order)`: `dict(item)` copies each
record (callers require each item to be a dict, embedded as `Jobj`), then a
`"name"` field is attached.  The loop appends in input order and aborts at the
first raised exception. -/
def enrich_build_order (cat : Catalog) (build_order : List Jobj) :
    Except Unit (List Jobj) :=
  build_order.mapM (enrichItem cat)

/-! ## src/backend/aoe4world_client.py — Match Record Normalizer -/

/-- The `Game` dataclass.  Python does not enforce the annotated field types;
fields hold whatever raw value the payload supplied (or the `.get` default),
so they are embedded as `JVal`.  `started_at` holds the raw `"started_at"`
payload value: the code parses it as ISO-8601 (with `"Z"` replaced by
`"+00:00"`) and falls back to the current time on any failure, and no verified
claim depends on the parsed timestamp. -/
structure Game where
  game_id : JVal
  started_at : JVal
  duration : JVal
  map : JVal
  kind : JVal
  player_civ : JVal
  player_result : JVal
  player_rating : JVal
  player_rating_diff : JVal
  opponent_name : JVal
  opponent_civ : JVal
  opponent_rating : JVal
deriving Repr

/-- `player = player_wrapper.get('player', player_wrapper)` followed by the
`isinstance(player, dict)` check: the participant dict named by a wrapper, or
`none` when the loop `continue`s. -/
def resolveWrapper : JVal → Option Jobj
  | .obj wkvs =>
    match (jlookup wkvs "player").getD (.obj wkvs) with
    | .obj pkvs => some pkvs
    | _ => none
  | _ => none

/-- `str(player.get("profile_id")) == str(profile_id)`. -/
def matchesProfile (pidStr : String) (pkvs : Jobj) : Bool :=
  pyStrGet pkvs "profile_id" = pidStr

/-- The `(player_info, opponent_info)` update for one resolved participant
dict: a match overwrites `player_info` (last match wins); only the first
non-matching participant is kept as `opponent_info`. -/
def processPlayer (pidStr : String) (acc : Option Jobj × Option Jobj)
    (pkvs : Jobj) : Option Jobj × Option Jobj :=
  if matchesProfile pidStr pkvs then (some pkvs, acc.2)
  else (acc.1, if acc.2.isSome then acc.2 else some pkvs)

/-- One iteration of the inner `for player_wrapper in players` loop of
`parse_game`: non-dict wrappers/players `continue`. -/
def processWrapper (pidStr : String) (acc : Option Jobj × Option Jobj)
    (w : JVal) : Option Jobj × Option Jobj :=
  match resolveWrapper w with
  | none => acc
  | some pkvs => processPlayer pidStr acc pkvs

/-- The per-team shape probe of `parse_game`: a dict team reads its
`"players"` value (default `[]`) and iterates it, a list team iterates itself,
any other team is skipped (`continue`, modelled `none`); a dict team whose
`"players"` value is not iterable raises (`some (.error ())`). -/
def extractPlayers : JVal → Option (Except Unit (List JVal))
  | .obj tkvs => some (pyIter ((jlookup tkvs "players").getD (.arr [])))
  | .arr ws => some (.ok ws)
  | _ => none

/-- The outer `for team in teams` loop of `parse_game`: folds
`processWrapper` over each team's players, aborting on the first raised
exception. -/
def scanTeams (pidStr : String) (acc : Option Jobj × Option Jobj) :
    List JVal → Except Unit (Option Jobj × Option Jobj)
  | [] => .ok acc
  | t :: rest =>
    match extractPlayers t with
    | none => scanTeams pidStr acc rest
    | some (.error _) => .error ()
    | some (.ok ws) => scanTeams pidStr (ws.foldl (processWrapper pidStr) acc) rest

/-- Construction of the returned `Game` from the payload dict, the found
player dict and the optional opponent dict. -/
def mkGame (kvs : Jobj) (p : Jobj) (opp : Option Jobj) : Game where
  game_id := pyGet kvs "game_id" (.str "")
  started_at := pyGet kvs "started_at" (.str "")
  duration := pyGet kvs "duration" (.num 0)
  map := pyGet kvs "map" (.str "Unknown")
  kind := pyGet kvs "kind" (.str "unknown")
  player_civ := pyGet p "civilization" (.str "Unknown")
  player_result := pyGet p "result" (.str "unknown")
  player_rating := pyGet p "rating" (.num 0)
  player_rating_diff := pyGet p "rating_diff" (.num 0)
  opponent_name := match opp with
    | some o => pyGet o "name" (.str "Unknown")
    | none => .str "Unknown"
  opponent_civ := match opp with
    | some o => pyGet o "civilization" (.str "Unknown")
    | none => .str "Unknown"
  opponent_rating := match opp with
    | some o => pyGet o "rating" (.num 0)
    | none => .num 0

/-- `AoE4WorldClient.parse_game(game_data, profile_id)`.  Every failure path
(the `isinstance` guard, empty/missing `teams`, an exception caught by the
blanket handler, no matching participant, or a falsy matched dict) returns
`None`.  `profile_id` is kept as a raw value since callers may supply an
integer; only `str(profile_id)` is ever used. -/
def parse_game (game_data : JVal) (profile_id : JVal) : Option Game :=
  match game_data with
  | .obj kvs =>
    let teams := (jlookup kvs "teams").getD (.arr [])
    if !JVal.pyTruthy teams then none
    else
      match pyIter teams with
      | .error _ => none
      | .ok teamList =>
        match scanTeams (JVal.pyStr profile_id) (none, none) teamList with
        | .error _ => none
        | .ok (player_info, opponent_info) =>
          match player_info with
          | none => none
          | some p => if p.isEmpty then none else some (mkGame kvs p opponent_info)
  | _ => none

/-- The wrappers a single team contributes to the traversal (none when the
team is skipped or its players value would fail to iterate). -/
def teamPlayers (t : JVal) : List JVal :=
  match extractPlayers t with
  | some (.ok ws) => ws
  | _ => []

/-- The participants a payload presents to `parse_game`'s traversal: every
wrapper-resolved player dict of every recognizably shaped team (teams or
players that the traversal would skip or fail on contribute none). -/
def participantsOf (game_data : JVal) : List Jobj :=
  match game_data with
  | .obj kvs =>
    match pyIter ((jlookup kvs "teams").getD (.arr [])) with
    | .error _ => []
    | .ok teamList => (teamList.flatMap teamPlayers).filterMap resolveWrapper
  | _ => []

/-- The last participant in traversal order that string-matches the target
identifier — the value `player_info` holds when the loops finish. -/
def lastMatch (pidStr : String) : List Jobj → Option Jobj
  | [] => none
  | p :: ps =>
    match lastMatch pidStr ps with
    | some q => some q
    | none => if matchesProfile pidStr p then some p else none

/-- The `GameSummary` dataclass (fields embedded as raw values, age timings as
`Option JVal` since `actions.get(key, [None])[0]` can produce `None`). -/
structure GameSummary where
  game_id : JVal
  duration : JVal
  map_name : JVal
  win_reason : JVal
  player_name : JVal
  player_civ : JVal
  player_result : JVal
  player_apm : JVal
  build_order : JVal
  feudal_age_time : Option JVal
  castle_age_time : Option JVal
  imperial_age_time : Option JVal
  total_resources_gathered : JVal
  total_resources_spent : JVal
  final_score : JVal
  opponent_name : JVal
  opponent_civ : JVal
deriving Repr

/-- The `for player in summary_data["players"]` loop of `parse_game_summary`:
matches on `str(player.get("profileId")) == str(profile_id)`; BOTH slots take
the last assignment; a non-dict element raises (`player.get` on a non-dict). -/
def scanPlayers (pidStr : String) (acc : Option Jobj × Option Jobj) :
    List JVal → Except Unit (Option Jobj × Option Jobj)
  | [] => .ok acc
  | .obj pkvs :: rest =>
    if pyStrGet pkvs "profileId" = pidStr then
      scanPlayers pidStr (some pkvs, acc.2) rest
    else
      scanPlayers pidStr (acc.1, some pkvs) rest
  | _ :: _ => .error ()

/-- `actions.get(key, [None])[0]`: an absent key reads `[None][0] = None`; a
present non-empty list gives its head; a present empty list raises
`IndexError`; a present non-empty string indexes its first character; any
other present value raises (`TypeError`/`KeyError` — a dict value cannot hold
integer key `0` here since JSON object keys are strings). -/
def ageTime (acts : Jobj) (key : String) : Except Unit (Option JVal) :=
  match jlookup acts key with
  | none => .ok none
  | some (.arr []) => .error ()
  | some (.arr (t :: _)) => .ok (some t)
  | some (.str s) =>
    match s.toList with
    | [] => .error ()
    | c :: _ => .ok (some (.str (String.singleton c)))
  | some _ => .error ()

/-- Construction of the returned `GameSummary` from the payload dict, the
found player dict, the optional opponent dict and the three age-timing
reads. -/
def mkGameSummary (kvs pkvs : Jobj) (opponent_data : Option Jobj)
    (f c i : Option JVal) : GameSummary where
  game_id := (jlookup kvs "gameId").getD .null
  duration := pyGet kvs "duration" (.num 0)
  map_name := pyGet kvs "mapName" (.str "Unknown")
  win_reason := pyGet kvs "winReason" (.str "Unknown")
  player_name := pyGet pkvs "name" (.str "Unknown")
  player_civ := pyGet pkvs "civilization" (.str "Unknown")
  player_result := pyGet pkvs "result" (.str "unknown")
  player_apm := pyGet pkvs "apm" (.num 0)
  build_order := pyGet pkvs "buildOrder" (.arr [])
  feudal_age_time := f
  castle_age_time := c
  imperial_age_time := i
  total_resources_gathered := pyGet pkvs "totalResourcesGathered" (.obj [])
  total_resources_spent := pyGet pkvs "totalResourcesSpent" (.obj [])
  final_score := pyGet pkvs "scores" (.obj [])
  opponent_name := match opponent_data with
    | some o => pyGet o "name" (.str "Unknown")
    | none => .str "Unknown"
  opponent_civ := match opponent_data with
    | some o => pyGet o "civilization" (.str "Unknown")
    | none => .str "Unknown"

/-- `AoE4WorldClient.parse_game_summary(summary_data, profile_id)`.  The
entire body runs under a blanket `except` returning `None`; the guard
`if not summary_data or "players" not in summary_data` rejects falsy or
key-less payloads, and every non-dict payload also ends in `None` (either at
the membership test or at the `summary_data["players"]` indexing).  The three
`actions.get(...)` reads run in order, so a raise in any of them aborts the
whole parse. -/
def parse_game_summary (summary_data : JVal) (profile_id : String) :
    Option GameSummary :=
  match summary_data with
  | .obj kvs =>
    if kvs.isEmpty then none
    else
      match jlookup kvs "players" with
      | none => none
      | some playersVal =>
        match pyIter playersVal with
        | .error _ => none
        | .ok players =>
          match scanPlayers profile_id (none, none) players with
          | .error _ => none
          | .ok (player_data, opponent_data) =>
            match player_data with
            | none => none
            | some pkvs =>
              if pkvs.isEmpty then none
              else
                match pyGet pkvs "actions" (.obj []) with
                | .obj acts =>
                  match ageTime acts "feudalAge", ageTime acts "castleAge",
                      ageTime acts "imperialAge" with
                  | .ok f, .ok c, .ok i =>
                    some (mkGameSummary kvs pkvs opponent_data f c i)
                  | _, _, _ => none
                | _ => none
  | _ => none

/-! ## src/backend/aoe4world_client.py — Aggregator (`analyze_performance`) -/

/-- Python `round(x, 1)` needs round-half-to-even; floor/fraction based. -/
def roundHalfEven (q : ℚ) : ℤ :=
  let f := ⌊q⌋
  let r := q - (f : ℚ)
  if r < 1/2 then f
  else if r > 1/2 then f + 1
  else if f % 2 = 0 then f else f + 1

/-- Python `round(x, 1)`: one decimal place, halves to even.  Arithmetic is
modelled exactly over `ℚ` (Python computes over binary floats; on the small
integer ratios the verified claims touch the values coincide). -/
def round1 (q : ℚ) : ℚ :=
  (roundHalfEven (q * 10) : ℚ) / 10

/-- Numeric reading of a raw field used in arithmetic (`rating`,
`rating_diff`).  Python would raise `TypeError` on a non-numeric value; such
payloads are outside the modelled domain (no claim involves them) and read
as `0`. -/
def jIntD : JVal → Int
  | .num n => n
  | .bool b => cond b 1 0
  | _ => 0

/-- One per-group entry of `civilization_stats` / `map_stats`. -/
structure CivStat where
  games : Nat
  wins : Nat
  win_rate : ℚ
deriving Repr, DecidableEq

/-- The dict returned by a successful (non-empty-input) `analyze_performance`
call. -/
structure Analysis where
  total_games : Nat
  wins : Nat
  losses : Int
  win_rate : ℚ
  civilization_stats : List (JVal × CivStat)
  map_stats : List (JVal × CivStat)
  avg_rating_change : ℚ
  current_rating : JVal
deriving Repr

/-- One iteration of the counting loops: a fresh key is appended with
`{"games": 1, "wins": 0/1}` (dict insertion order), an existing key has its
counters bumped in place. -/
def bump (key : JVal) (isWin : Bool) : List (JVal × Nat × Nat) →
    List (JVal × Nat × Nat)
  | [] => [(key, 1, cond isWin 1 0)]
  | (k, gw) :: rest =>
    if JVal.beq k key then (k, gw.1 + 1, gw.2 + cond isWin 1 0) :: rest
    else (k, gw) :: bump key isWin rest

/-- The `for game in games` counting loop, keyed by `keyOf` (`player_civ` for
`civ_stats`, `map` for `map_stats`). -/
def tally (keyOf : Game → JVal) (games : List Game) : List (JVal × Nat × Nat) :=
  games.foldl
    (fun acc g => bump (keyOf g) (JVal.beq g.player_result (.str "win")) acc) []

/-- The "Calculate win rates" pass: each group gains
`win_rate = wins / games * 100` (NOT rounded — only the overall rate is). -/
def addRate (counts : List (JVal × Nat × Nat)) : List (JVal × CivStat) :=
  counts.map fun kv => (kv.1, ⟨kv.2.1, kv.2.2, (kv.2.2 : ℚ) / (kv.2.1 : ℚ) * 100⟩)

/-- `AoE4WorldClient.analyze_performance(games)`.  `if not games: return {}`
is embedded as `none` — the empty dict carries no statistics at all. -/
def analyze_performance (games : List Game) : Option Analysis :=
  if games.isEmpty then none
  else
    let total_games := games.length
    let wins := (games.filter fun g => JVal.beq g.player_result (.str "win")).length
    let win_rate : ℚ :=
      if total_games > 0 then (wins : ℚ) / (total_games : ℚ) * 100 else 0
    let rating_changes := games.map fun g => jIntD g.player_rating_diff
    let avg_rating_change : ℚ :=
      if !rating_changes.isEmpty then
        ((rating_changes.sum : ℤ) : ℚ) / (rating_changes.length : ℚ)
      else 0
    some {
      total_games := total_games
      wins := wins
      losses := (total_games : ℤ) - (wins : ℤ)
      win_rate := round1 win_rate
      civilization_stats := addRate (tally Game.player_civ games)
      map_stats := addRate (tally Game.map games)
      avg_rating_change := round1 avg_rating_change
      current_rating := (games.head?.map Game.player_rating).getD (.num 0) }

/-! ## src/backend/main.py — Report Assembler -/

/-- The whitespace set of Python's no-argument `str.strip()` (ASCII part;
relevant report strings are ASCII). -/
def pyIsSpaceChar (c : Char) : Bool :=
  c == ' ' || c == '\t' || c == '\n' || c == '\r' ||
    c == Char.ofNat 11 || c == Char.ofNat 12

/-- Python `s.strip(chars)`: remove leading and trailing characters drawn
from `chars`. -/
def stripChars (chars : List Char) (s : String) : String :=
  String.mk (((s.toList.dropWhile (· ∈ chars)).reverse.dropWhile (· ∈ chars)).reverse)

/-- Truthiness of `line.strip()`: the line has some non-whitespace
character. -/
def lineHasContent (s : String) : Bool :=
  s.toList.any fun c => !pyIsSpaceChar c

/-- The literal character set of `line.strip('- â€¢*')` in the source (the
bullet appears mojibake-encoded in the file as the three characters
`â`, `€`, `¢`). -/
def bulletStrip (s : String) : String :=
  stripChars ['-', ' ', 'â', '€', '¢', '*'] s

/-- The fields `normalize_coaching_report` forces to arrays. -/
def array_fields : List String :=
  ["strengths", "improvements", "civ_recommendations", "map_advice",
   "training_plan"]

/-- The first normalization pass of `normalize_coaching_report` on one field
value: a string with newlines is split into its (whitespace-)non-blank lines
with the bullet characters stripped, any other string is wrapped, a dict's
values become the list, a list stays, any other scalar becomes
`[str(value)]`. -/
def coerceArrayField : JVal → JVal
  | .str s =>
    if s.toList.contains '\n' then
      .arr ((((splitOnChar '\n' s.toList).map String.mk).filter
        lineHasContent).map fun l => .str (bulletStrip l))
    else .arr [.str s]
  | .obj kvs => .arr (kvs.map (·.2))
  | .arr xs => .arr xs
  | v => .arr [.str (JVal.pyStr v)]

/-- The second pass on one `improvements` element: a string becomes
`{"issue": s, "fix": "See coaching notes"}`, a dict is kept, anything else is
dropped. -/
def normImprovementItem : JVal → Option JVal
  | .str s => some (.obj [("issue", .str s), ("fix", .str "See coaching notes")])
  | .obj d => some (.obj d)
  | _ => none

/-- `normalize_coaching_report(report)`: the in-place field updates of the
Python code, on a dict with unique keys (it is parsed JSON). -/
def normalize_coaching_report (report : Jobj) : Jobj :=
  let r1 := report.map fun kv =>
    if kv.1 ∈ array_fields then (kv.1, coerceArrayField kv.2) else kv
  r1.map fun kv =>
    if kv.1 = "improvements" then
      match kv.2 with
      | .arr xs => (kv.1, .arr (xs.filterMap normImprovementItem))
      | v => (kv.1, v)
    else kv

/-- Python `max`/`min` over `civ_stats.items()` with
`key=lambda x: x[1].get("win_rate", 0)`: the first extremal item in iteration
order (`better` is `>` for `max`, `<` for `min`). -/
def argBest (better : ℚ → ℚ → Bool) : List (JVal × CivStat) →
    Option (JVal × CivStat)
  | [] => none
  | x :: xs =>
    some (xs.foldl (fun b y => if better y.2.win_rate b.2.win_rate then y else b) x)

/-- `generate_template_report(analysis)`, with `analysis` the
`analyze_performance` result (`none` embeds the empty dict `{}`; all `.get`
defaults then apply).  The `current_rating > 0` comparison reads the raw
value numerically (`jIntD`). -/
def generate_template_report (analysis : Option Analysis) : Jobj :=
  let win_rate : ℚ := match analysis with
    | some a => a.win_rate
    | none => 0
  let rating : String :=
    if win_rate ≥ 70 then "S"
    else if win_rate ≥ 60 then "A"
    else if win_rate ≥ 50 then "B"
    else if win_rate ≥ 40 then "C"
    else "D"
  let civ_stats : List (JVal × CivStat) := match analysis with
    | some a => a.civilization_stats
    | none => []
  let best_civ : JVal := match argBest (fun a b => a > b) civ_stats with
    | some kv => kv.1
    | none => .str "Unknown"
  let worst_civ : JVal := match argBest (fun a b => a < b) civ_stats with
    | some kv => kv.1
    | none => .str "Unknown"
  let current_rating : JVal := match analysis with
    | some a => a.current_rating
    | none => .num 0
  let bestKnown := !(JVal.beq best_civ (.str "Unknown"))
  let worstKnown := !(JVal.beq worst_civ (.str "Unknown"))
  [("rating", .str rating),
   ("note", .str "AI coaching requires OpenAI API key. Using template analysis."),
   ("strengths", .arr [
      (if bestKnown then .str ("Strong performance with " ++ JVal.pyStr best_civ)
       else .str "Consistent civ selection"),
      (if jIntD current_rating > 0 then
        .str ("Maintaining " ++ JVal.pyStr current_rating ++ " rating")
       else .str "Active ranked play")]),
   ("improvements", .arr [
      (if worstKnown then
        .obj [("issue", .str ("Lower win rate with " ++ JVal.pyStr worst_civ)),
              ("fix", .str ("Practice " ++ JVal.pyStr worst_civ ++
                " build orders in skirmish mode"))]
       else
        .obj [("issue", .str "Win rate below 50%"),
              ("fix", .str "Focus on one civilization to master")]),
      .obj [("issue", .str "Review recent losses"),
            ("fix", .str "Watch your own replays to identify mistakes")]]),
   ("civ_recommendations", .arr [
      (if bestKnown then
        .str ("Focus on " ++ JVal.pyStr best_civ ++ " - your strongest civilization")
       else .str "Try English or French for beginners")]),
   ("map_advice", .arr [
      .str "Practice on Arabia and Arabia-like open maps",
      .str "Learn walling patterns for closed maps"]),
   ("training_plan", .arr [
      (if bestKnown then .str ("Play 5 games with " ++ JVal.pyStr best_civ)
       else .str "Pick one civ and play 5 games"),
      .str "Focus on consistent build order execution",
      .str "Practice scouting in first 5 minutes",
      .str "Review one loss replay after each session"])]

/-- Modelled from the spec's words (§6): the rating-letter rule "thresholds at
70/60/50/40 percent win rate mapped to S/A/B/C/D", used to re-derive the
letter from a summary's win rate alone for the round-trip claim. -/
def ratingLetterSpec (winRatePercent : ℚ) : String :=
  if winRatePercent ≥ 70 then "S"
  else if winRatePercent ≥ 60 then "A"
  else if winRatePercent ≥ 50 then "B"
  else if winRatePercent ≥ 40 then "C"
  else "D"

/-! ## Spec-side definitions used to state the claims -/

/-- Dict lookup in `civilization_stats` / `map_stats` by raw key. -/
def assocFind : List (JVal × CivStat) → JVal → Option CivStat
  | [], _ => none
  | (k, cs) :: rest, key =>
    if JVal.beq k key then some cs else assocFind rest key

/-- Wellformedness of an item's `"icon"` field for `enrich_build_order`: a
truthy icon value must be a string (a truthy non-string would raise in
Python). -/
def iconOk (item : Jobj) : Bool :=
  match pyGet item "icon" (.str "") with
  | .str _ => true
  | v => !JVal.pyTruthy v

/-- The name `enrich_build_order` attaches to an item, stated as the
resolution-priority rule: the catalog name when a truthy entity id resolves;
otherwise the non-empty icon slug (last path segment, underscores to spaces)
when the icon is truthy; otherwise `"Unknown (<id>)"` when a truthy entity id
is present and `"Unknown"` when it is not (an empty slug counts as absent
only on the entity-id path). -/
def enrichedName (cat : Catalog) (item : Jobj) : String :=
  let pbgid := (jlookup item "pbgid").getD .null
  let icon := pyGet item "icon" (.str "")
  let slug : Option String :=
    match icon with
    | .str s => if s = "" then none else some (iconSlug s)
    | _ => none
  if JVal.pyTruthy pbgid then
    match lookupEntity cat pbgid with
    | some e => e.name
    | none =>
      match slug with
      | some s =>
        if s = "" then "Unknown (" ++ JVal.pyStr pbgid ++ ")" else s
      | none => "Unknown (" ++ JVal.pyStr pbgid ++ ")"
  else
    match slug with
    | some s => s
    | none => "Unknown"

/-- The second `normalize_coaching_report` pass as a value transformer
(applies to the already-coerced `improvements` list). -/
def improvementsPass : JVal → JVal
  | .arr xs => .arr (xs.filterMap normImprovementItem)
  | v => v

/-- A concrete parsed `Game` (civilization, result, map) used to instantiate
the aggregation claims; the remaining fields are fixed representative
values. -/
def sampleGame (civ result mp : String) : Game where
  game_id := .str "g"
  started_at := .str "2024-01-01T00:00:00Z"
  duration := .num 1800
  map := .str mp
  kind := .str "rm_solo"
  player_civ := .str civ
  player_result := .str result
  player_rating := .num 1200
  player_rating_diff := .num 10
  opponent_name := .str "opp"
  opponent_civ := .str "X"
  opponent_rating := .num 1190

/-- Three matches against faction "A" with exactly one win: the group whose
unrounded win rate (100/3) a one-decimal rounding would change. -/
def gamesThirdWin : List Game :=
  [sampleGame "A" "win" "m", sampleGame "A" "loss" "m", sampleGame "A" "loss" "m"]

/-- The spec's scenario: two matches against faction "A" (one win, one loss)
and one against faction "B" (a win). -/
def gamesScenarioAB : List Game :=
  [sampleGame "A" "win" "m", sampleGame "A" "loss" "m", sampleGame "B" "win" "m"]

/-! ## Lemmas about the `parse_game` traversal -/

theorem foldl_processWrapper (pidStr : String) (ws : List JVal) :
    ∀ acc, ws.foldl (processWrapper pidStr) acc =
      (ws.filterMap resolveWrapper).foldl (processPlayer pidStr) acc := by
  induction ws with
  | nil => intro acc; rfl
  | cons w ws ih =>
    intro acc
    cases h : resolveWrapper w <;>
      simp [List.filterMap_cons, h, List.foldl_cons, processWrapper, ih]

theorem scanTeams_ok_of_no_error (pidStr : String) (ts : List JVal) :
    ∀ acc, (∀ t ∈ ts, extractPlayers t ≠ some (.error ())) →
      scanTeams pidStr acc ts =
        .ok (((ts.flatMap teamPlayers).filterMap resolveWrapper).foldl
          (processPlayer pidStr) acc) := by
  induction ts with
  | nil => intro acc _; rfl
  | cons t ts ih =>
    intro acc h
    have ht := h t (List.mem_cons_self _ _)
    have hrest : ∀ t' ∈ ts, extractPlayers t' ≠ some (.error ()) :=
      fun t' ht' => h t' (List.mem_cons_of_mem _ ht')
    match he : extractPlayers t with
    | none =>
        rw [scanTeams, he]
        show scanTeams pidStr acc ts = _
        rw [ih acc hrest]
        simp [List.flatMap_cons, teamPlayers, he]
    | some (.error ()) => exact absurd he ht
    | some (.ok ws) =>
        rw [scanTeams, he]
        show scanTeams pidStr (ws.foldl (processWrapper pidStr) acc) ts = _
        rw [ih _ hrest]
        simp [List.flatMap_cons, List.filterMap_append, List.foldl_append,
          teamPlayers, he, foldl_processWrapper]

theorem extractPlayers_ne_error_of_scan_ok (pidStr : String) (ts : List JVal) :
    ∀ acc r, scanTeams pidStr acc ts = .ok r →
      ∀ t ∈ ts, extractPlayers t ≠ some (.error ()) := by
  induction ts with
  | nil => intro _ _ _ t ht; cases ht
  | cons t ts ih =>
    intro acc r hscan t' ht'
    rcases List.mem_cons.mp ht' with rfl | hmem
    · intro he
      rw [scanTeams, he] at hscan
      cases hscan
    · match he : extractPlayers t with
      | none =>
          rw [scanTeams, he] at hscan
          exact ih _ _ hscan t' hmem
      | some (.error ()) =>
          rw [scanTeams, he] at hscan
          cases hscan
      | some (.ok ws) =>
          rw [scanTeams, he] at hscan
          exact ih _ _ hscan t' hmem

theorem foldl_processPlayer_fst (pidStr : String) (ps : List Jobj) :
    ∀ acc, (ps.foldl (processPlayer pidStr) acc).1 =
      match lastMatch pidStr ps with
      | some q => some q
      | none => acc.1 := by
  induction ps with
  | nil => intro acc; rfl
  | cons p ps ih =>
    intro acc
    rw [List.foldl_cons, ih, lastMatch]
    cases hl : lastMatch pidStr ps with
    | some q => rfl
    | none =>
        cases hm : matchesProfile pidStr p <;> simp [processPlayer, hm]

theorem foldl_processPlayer_snd (pidStr : String) (ps : List Jobj) :
    ∀ acc, (ps.foldl (processPlayer pidStr) acc).2 =
      match acc.2 with
      | some o => some o
      | none => ps.find? fun p => !matchesProfile pidStr p := by
  induction ps with
  | nil =>
    intro acc
    obtain ⟨a1, a2⟩ := acc
    cases a2 <;> rfl
  | cons p ps ih =>
    intro acc
    rw [List.foldl_cons, ih]
    cases ho : acc.2 with
    | some o => cases hm : matchesProfile pidStr p <;> simp [processPlayer, hm, ho]
    | none =>
        cases hm : matchesProfile pidStr p <;>
          simp [processPlayer, hm, ho, List.find?_cons]

theorem lastMatch_eq_none (pidStr : String) (ps : List Jobj)
    (h : ∀ p ∈ ps, matchesProfile pidStr p = false) :
    lastMatch pidStr ps = none := by
  induction ps with
  | nil => rfl
  | cons p ps ih =>
    rw [lastMatch, ih fun q hq => h q (List.mem_cons_of_mem _ hq)]
    simp [h p (List.mem_cons_self _ _)]

theorem lastMatch_spec (pidStr : String) (ps : List Jobj) :
    ∀ q, lastMatch pidStr ps = some q →
      q ∈ ps ∧ matchesProfile pidStr q = true := by
  induction ps with
  | nil => intro q h; cases h
  | cons p ps ih =>
    intro q h
    rw [lastMatch] at h
    cases hl : lastMatch pidStr ps with
    | some r =>
        rw [hl] at h
        cases h
        exact ⟨List.mem_cons_of_mem _ (ih q hl).1, (ih q hl).2⟩
    | none =>
        rw [hl] at h
        cases hm : matchesProfile pidStr p with
        | true =>
            rw [hm] at h
            simp at h
            exact ⟨h ▸ List.mem_cons_self _ _, h ▸ hm⟩
        | false => rw [hm] at h; simp at h

theorem lastMatch_isSome (pidStr : String) (ps : List Jobj) (p : Jobj)
    (hp : p ∈ ps) (hm : matchesProfile pidStr p = true) :
    ∃ q, lastMatch pidStr ps = some q := by
  induction ps with
  | nil => cases hp
  | cons r ps ih =>
    rw [lastMatch]
    cases hl : lastMatch pidStr ps with
    | some q => exact ⟨q, rfl⟩
    | none =>
        rcases List.mem_cons.mp hp with rfl | hmem
        · exact ⟨p, by simp [hm]⟩
        · rcases ih hmem with ⟨q, hq⟩
          rw [hl] at hq
          cases hq

theorem participantsOf_obj (kvs : Jobj) (ts : List JVal)
    (hkv : (jlookup kvs "teams").getD (.arr []) = .arr ts) :
    participantsOf (.obj kvs) = (ts.flatMap teamPlayers).filterMap resolveWrapper := by
  rw [participantsOf, hkv]
  rfl

theorem parse_game_obj_shape (kvs : Jobj) (pid : JVal) (ts : List JVal)
    (hkv : (jlookup kvs "teams").getD (.arr []) = .arr ts)
    (hts : ts ≠ [])
    (hok : ∀ t ∈ ts, extractPlayers t ≠ some (.error ())) :
    parse_game (.obj kvs) pid =
      match lastMatch (JVal.pyStr pid) (participantsOf (.obj kvs)) with
      | none => none
      | some p =>
        if p.isEmpty then none
        else some (mkGame kvs p ((participantsOf (.obj kvs)).find?
          fun r => !matchesProfile (JVal.pyStr pid) r)) := by
  have hparts := participantsOf_obj kvs ts hkv
  rw [parse_game, hkv]
  have htr : JVal.pyTruthy (.arr ts) = true := by
    simp [JVal.pyTruthy, hts]
  rw [htr]
  show (match pyIter (.arr ts) with
    | .error _ => none
    | .ok teamList =>
      match scanTeams (JVal.pyStr pid) (none, none) teamList with
      | .error _ => none
      | .ok (player_info, opponent_info) =>
        match player_info with
        | none => none
        | some p => if p.isEmpty then none else some (mkGame kvs p opponent_info)) = _
  rw [show pyIter (.arr ts) = Except.ok ts from rfl]
  show (match scanTeams (JVal.pyStr pid) (none, none) ts with
    | .error _ => none
    | .ok (player_info, opponent_info) =>
      match player_info with
      | none => none
      | some p => if p.isEmpty then none else some (mkGame kvs p opponent_info)) = _
  rw [scanTeams_ok_of_no_error _ ts (none, none) hok]
  show (match (((ts.flatMap teamPlayers).filterMap resolveWrapper).foldl
        (processPlayer (JVal.pyStr pid)) (none, none)).1 with
    | none => none
    | some p =>
      if p.isEmpty then none
      else some (mkGame kvs p (((ts.flatMap teamPlayers).filterMap resolveWrapper).foldl
        (processPlayer (JVal.pyStr pid)) (none, none)).2)) = _
  rw [foldl_processPlayer_fst, foldl_processPlayer_snd, hparts]
  cases lastMatch (JVal.pyStr pid) ((ts.flatMap teamPlayers).filterMap resolveWrapper) <;> rfl

theorem parse_game_some_imp (gd pid : JVal) (g : Game)
    (h : parse_game gd pid = some g) :
    ∃ p ∈ participantsOf gd, matchesProfile (JVal.pyStr pid) p = true := by
  cases gd with
  | obj kvs =>
    rw [parse_game] at h
    split at h
    · cases h
    · split at h
      · cases h
      · rename_i teamList hit
        split at h
        · cases h
        · rename_i r pi oi hscan
          split at h
          · cases h
          · rename_i p
            split at h
            · cases h
            · rename_i hpe
              have hok := extractPlayers_ne_error_of_scan_ok _ _ _ _ hscan
              have heq := scanTeams_ok_of_no_error (JVal.pyStr pid) teamList (none, none) hok
              rw [hscan] at heq
              have h2 : (some p, oi) =
                  ((teamList.flatMap teamPlayers).filterMap resolveWrapper).foldl
                    (processPlayer (JVal.pyStr pid)) (none, none) := by
                injection heq
              have hfst : (((teamList.flatMap teamPlayers).filterMap resolveWrapper).foldl
                  (processPlayer (JVal.pyStr pid)) (none, none)).1 = some p := by
                rw [← h2]
              rw [foldl_processPlayer_fst] at hfst
              have hparts : participantsOf (.obj kvs) =
                  (teamList.flatMap teamPlayers).filterMap resolveWrapper := by
                rw [participantsOf, hit]
              cases hl : lastMatch (JVal.pyStr pid)
                  ((teamList.flatMap teamPlayers).filterMap resolveWrapper) with
              | none => rw [hl] at hfst; simp at hfst
              | some q =>
                  rw [hl] at hfst
                  simp only [] at hfst
                  have hq := lastMatch_spec _ _ q hl
                  exact ⟨q, hparts ▸ hq.1, hq.2⟩
  | null => cases h
  | bool b => cases h
  | num n => cases h
  | str s => cases h
  | arr xs => cases h

theorem parse_game_none_of_no_match (gd pid : JVal)
    (h : ∀ p ∈ participantsOf gd, matchesProfile (JVal.pyStr pid) p = false) :
    parse_game gd pid = none := by
  cases hpg : parse_game gd pid with
  | none => rfl
  | some g =>
    obtain ⟨p, hp, hm⟩ := parse_game_some_imp gd pid g hpg
    rw [h p hp] at hm
    cases hm

theorem parse_game_success_of (kvs : Jobj) (pid : JVal) (ts : List JVal)
    (hkv : jlookup kvs "teams" = some (.arr ts))
    (hok : ∀ t ∈ ts, extractPlayers t ≠ some (.error ()))
    (p : Jobj) (hp : p ∈ participantsOf (.obj kvs))
    (hm : matchesProfile (JVal.pyStr pid) p = true)
    (hne : ∀ q ∈ participantsOf (.obj kvs),
      matchesProfile (JVal.pyStr pid) q = true → q ≠ []) :
    ∃ q, q ∈ participantsOf (.obj kvs) ∧
      matchesProfile (JVal.pyStr pid) q = true ∧
      parse_game (.obj kvs) pid =
        some (mkGame kvs q ((participantsOf (.obj kvs)).find?
          fun r => !matchesProfile (JVal.pyStr pid) r)) := by
  have hkv' : (jlookup kvs "teams").getD (.arr []) = .arr ts := by
    rw [hkv]
    rfl
  have hts : ts ≠ [] := by
    intro h0
    rw [participantsOf_obj kvs ts hkv'] at hp
    subst h0
    simp at hp
  obtain ⟨q, hq⟩ :=
    lastMatch_isSome (JVal.pyStr pid) (participantsOf (.obj kvs)) p hp hm
  have hspec := lastMatch_spec _ _ q hq
  have hqne : q.isEmpty = false := by
    cases hql : q with
    | nil => exact absurd hql (hne q hspec.1 hspec.2)
    | cons a l => rfl
  refine ⟨q, hspec.1, hspec.2, ?_⟩
  rw [parse_game_obj_shape kvs pid ts hkv' hts hok, hq]
  simp [hqne]

/-! ## Claim C2 -/

/-- C2: for every raw match payload, `parse_game` with a player identifier
string-matching none of the payload's participants yields no `Game`
("player not present"); with a present identifier (on a payload whose teams
list is well-shaped, no participant iteration raising, and whose matching
participants are non-empty dicts) it succeeds, the produced `Game`'s self
slot being one matching participant and its single opponent slot the first
non-matching participant (defaults when there is none). -/
theorem C2_parse_game_player_presence :
    (∀ gd pid : JVal,
      (∀ p ∈ participantsOf gd, matchesProfile (JVal.pyStr pid) p = false) →
      parse_game gd pid = none) ∧
    (∀ (kvs : Jobj) (pid : JVal) (ts : List JVal),
      jlookup kvs "teams" = some (.arr ts) →
      (∀ t ∈ ts, extractPlayers t ≠ some (.error ())) →
      (∃ p ∈ participantsOf (.obj kvs), matchesProfile (JVal.pyStr pid) p = true) →
      (∀ q ∈ participantsOf (.obj kvs),
        matchesProfile (JVal.pyStr pid) q = true → q ≠ []) →
      ∃ q, q ∈ participantsOf (.obj kvs) ∧
        matchesProfile (JVal.pyStr pid) q = true ∧
        parse_game (.obj kvs) pid =
          some (mkGame kvs q ((participantsOf (.obj kvs)).find?
            fun r => !matchesProfile (JVal.pyStr pid) r))) := by
  constructor
  · exact parse_game_none_of_no_match
  · intro kvs pid ts hkv hok hex hne
    obtain ⟨p, hp, hm⟩ := hex
    exact parse_game_success_of kvs pid ts hkv hok p hp hm hne

/-- Witness for C2: a two-participant payload mixing both team layouts; the
absent identifier `"999"` fails, the present identifier `123` (an integer,
stored as `"123"`) succeeds with the matching participant as self and the
other participant as opponent. -/
theorem C2_parse_game_player_presence_witness :
    parse_game (.obj [("teams", .arr [
        .obj [("players", .arr [.obj [("player",
          .obj [("profile_id", .str "123"), ("result", .str "win")])]])],
        .arr [.obj [("profile_id", .str "456")]]])]) (.str "999") = none ∧
    parse_game (.obj [("teams", .arr [
        .obj [("players", .arr [.obj [("player",
          .obj [("profile_id", .str "123"), ("result", .str "win")])]])],
        .arr [.obj [("profile_id", .str "456")]]])]) (.num 123) =
      some (mkGame
        [("teams", .arr [
          .obj [("players", .arr [.obj [("player",
            .obj [("profile_id", .str "123"), ("result", .str "win")])]])],
          .arr [.obj [("profile_id", .str "456")]]])]
        [("profile_id", .str "123"), ("result", .str "win")]
        (some [("profile_id", .str "456")])) := by
  constructor
  · refine C2_parse_game_player_presence.1 _ (.str "999") ?_
    intro p hp
    have hp' : p ∈ [[("profile_id", JVal.str "123"), ("result", JVal.str "win")],
        [("profile_id", JVal.str "456")]] := hp
    rcases List.mem_cons.mp hp' with rfl | hp2
    · rfl
    · rcases List.mem_cons.mp hp2 with rfl | h0
      · rfl
      · cases h0
  · obtain ⟨q, hq, hm, hpg⟩ := C2_parse_game_player_presence.2
      [("teams", .arr [
        .obj [("players", .arr [.obj [("player",
          .obj [("profile_id", .str "123"), ("result", .str "win")])]])],
        .arr [.obj [("profile_id", .str "456")]]])]
      (.num 123)
      [.obj [("players", .arr [.obj [("player",
          .obj [("profile_id", .str "123"), ("result", .str "win")])]])],
        .arr [.obj [("profile_id", .str "456")]]]
      rfl
      (by
        intro t ht
        rcases List.mem_cons.mp ht with rfl | ht
        · simp [extractPlayers, pyIter, jlookup]
        · rcases List.mem_cons.mp ht with rfl | ht
          · simp [extractPlayers]
          · cases ht)
      ⟨[("profile_id", .str "123"), ("result", .str "win")], by
        constructor
        · show _ ∈ [[("profile_id", JVal.str "123"), ("result", JVal.str "win")],
            [("profile_id", JVal.str "456")]]
          exact List.mem_cons_self _ _
        · rfl⟩
      (by
        intro q hq hm
        have hq' : q ∈ [[("profile_id", JVal.str "123"), ("result", JVal.str "win")],
            [("profile_id", JVal.str "456")]] := hq
        rcases List.mem_cons.mp hq' with rfl | hq2
        · simp
        · rcases List.mem_cons.mp hq2 with rfl | h0
          · simp
          · cases h0)
    have hq' : q ∈ [[("profile_id", JVal.str "123"), ("result", JVal.str "win")],
        [("profile_id", JVal.str "456")]] := hq
    rcases List.mem_cons.mp hq' with rfl | hq2
    · exact hpg
    · rcases List.mem_cons.mp hq2 with rfl | h0
      · exact absurd hm (by decide)
      · cases h0

/-! ## Claim C7 -/

/-- C7 counterexample: a payload whose `teams` value is a list of PLAIN player
objects (no wrapper of any kind), storing the identifier as the string
`"123"`, with the target supplied as the integer `123`.  Each player dict is
probed as a team dict, finds no `"players"` key, contributes no participants,
and normalization returns `None` — the claim's "normalization still succeeds"
fails on this payload. -/
theorem C7_counterexample :
    parse_game (.obj [("teams", .arr [
      .obj [("profile_id", .str "123"), ("civilization", .str "English"),
            ("result", .str "win")],
      .obj [("profile_id", .str "456")]])]) (.num 123) = none := rfl

/-- C7 amended: the two team layouts `parse_game` accepts are a team given as
a plain LIST of player objects and a team given as a `{"players": [...]}`
object (a `{"player": ...}` wrapper per player being optional inside either);
on any payload built from those layouts whose participants store
`"profile_id"` as a string, supplying the target identifier as an integer
whose digits equal a stored string still succeeds and identifies that
player.  A `teams` value that is directly a list of plain player objects
(the un-nested form the original claim described) is not accepted. -/
theorem C7_amended_shape_coercion :
    ∀ (kvs : Jobj) (ts : List JVal) (n : Int),
      jlookup kvs "teams" = some (.arr ts) →
      (∀ t ∈ ts, (∃ ws, t = .arr ws) ∨
        (∃ tkvs, t = .obj tkvs ∧
          ∃ ws, (jlookup tkvs "players").getD (.arr []) = .arr ws)) →
      (∀ p ∈ participantsOf (.obj kvs),
        ∃ s, jlookup p "profile_id" = some (.str s)) →
      (∃ p ∈ participantsOf (.obj kvs),
        jlookup p "profile_id" = some (.str (toString n))) →
      ∃ q, q ∈ participantsOf (.obj kvs) ∧
        matchesProfile (JVal.pyStr (.num n)) q = true ∧
        parse_game (.obj kvs) (.num n) =
          some (mkGame kvs q ((participantsOf (.obj kvs)).find?
            fun r => !matchesProfile (JVal.pyStr (.num n)) r)) := by
  intro kvs ts n hkv hshape hstr hex
  have hok : ∀ t ∈ ts, extractPlayers t ≠ some (.error ()) := by
    intro t ht
    rcases hshape t ht with ⟨ws, rfl⟩ | ⟨tkvs, rfl, ws, hws⟩
    · simp [extractPlayers]
    · simp [extractPlayers, hws, pyIter]
  obtain ⟨p, hp, hpid⟩ := hex
  have hm : matchesProfile (JVal.pyStr (.num n)) p = true := by
    simp [matchesProfile, pyStrGet, hpid, JVal.pyStr]
  have hne : ∀ q ∈ participantsOf (.obj kvs),
      matchesProfile (JVal.pyStr (.num n)) q = true → q ≠ [] := by
    intro q hq _ h0
    obtain ⟨s, hs⟩ := hstr q hq
    rw [h0] at hs
    cases hs
  exact parse_game_success_of kvs (.num n) ts hkv hok p hp hm hne

/-- Witness for C7 (amended): one team is a plain list holding an unwrapped
player storing `"profile_id": "77"`, the other a `{"players": [...]}` object
holding a wrapped player; target `77` supplied as an integer succeeds. -/
theorem C7_amended_shape_coercion_witness :
    parse_game (.obj [("teams", .arr [
        .arr [.obj [("profile_id", .str "77"), ("result", .str "win")]],
        .obj [("players", .arr [.obj [("player",
          .obj [("profile_id", .str "456")])]])]])]) (.num 77) =
      some (mkGame
        [("teams", .arr [
          .arr [.obj [("profile_id", .str "77"), ("result", .str "win")]],
          .obj [("players", .arr [.obj [("player",
            .obj [("profile_id", .str "456")])]])]])]
        [("profile_id", .str "77"), ("result", .str "win")]
        (some [("profile_id", .str "456")])) := by
  obtain ⟨q, hq, hm, hpg⟩ := C7_amended_shape_coercion
    [("teams", .arr [
      .arr [.obj [("profile_id", .str "77"), ("result", .str "win")]],
      .obj [("players", .arr [.obj [("player",
        .obj [("profile_id", .str "456")])]])]])]
    [.arr [.obj [("profile_id", .str "77"), ("result", .str "win")]],
      .obj [("players", .arr [.obj [("player",
        .obj [("profile_id", .str "456")])]])]]
    77
    rfl
    (by
      intro t ht
      rcases List.mem_cons.mp ht with rfl | ht
      · exact Or.inl ⟨_, rfl⟩
      · rcases List.mem_cons.mp ht with rfl | h0
        · exact Or.inr ⟨_, rfl, _, rfl⟩
        · cases h0)
    (by
      intro p hp
      have hp' : p ∈ [[("profile_id", JVal.str "77"), ("result", JVal.str "win")],
          [("profile_id", JVal.str "456")]] := hp
      rcases List.mem_cons.mp hp' with rfl | hp2
      · exact ⟨"77", rfl⟩
      · rcases List.mem_cons.mp hp2 with rfl | h0
        · exact ⟨"456", rfl⟩
        · cases h0)
    ⟨[("profile_id", .str "77"), ("result", .str "win")], by
      constructor
      · show _ ∈ [[("profile_id", JVal.str "77"), ("result", JVal.str "win")],
          [("profile_id", JVal.str "456")]]
        exact List.mem_cons_self _ _
      · rfl⟩
  have hq' : q ∈ [[("profile_id", JVal.str "77"), ("result", JVal.str "win")],
      [("profile_id", JVal.str "456")]] := hq
  rcases List.mem_cons.mp hq' with rfl | hq2
  · exact hpg
  · rcases List.mem_cons.mp hq2 with rfl | h0
    · exact absurd hm (by decide)
    · cases h0

/-! ## Claims C8 and C10 -/

theorem parse_game_summary_reaches_actions (kvs : Jobj) (pid : String)
    (ps : List JVal) (pkvs : Jobj) (od : Option Jobj) (acts : Jobj)
    (h0 : kvs ≠ [])
    (h1 : jlookup kvs "players" = some (.arr ps))
    (h2 : scanPlayers pid (none, none) ps = .ok (some pkvs, od))
    (h3 : pkvs ≠ [])
    (h4 : pyGet pkvs "actions" (.obj []) = .obj acts) :
    parse_game_summary (.obj kvs) pid =
      match ageTime acts "feudalAge", ageTime acts "castleAge",
          ageTime acts "imperialAge" with
      | .ok f, .ok c, .ok i => some (mkGameSummary kvs pkvs od f c i)
      | _, _, _ => none := by
  have h0' : kvs.isEmpty = false := by
    cases kvs with
    | nil => exact absurd rfl h0
    | cons a l => rfl
  have h3' : pkvs.isEmpty = false := by
    cases pkvs with
    | nil => exact absurd rfl h3
    | cons a l => rfl
  rw [parse_game_summary, h0']
  show (match jlookup kvs "players" with
    | none => none
    | some playersVal =>
      match pyIter playersVal with
      | .error _ => none
      | .ok players =>
        match scanPlayers pid (none, none) players with
        | .error _ => none
        | .ok (player_data, opponent_data) =>
          match player_data with
          | none => none
          | some pkvs =>
            if pkvs.isEmpty then none
            else
              match pyGet pkvs "actions" (.obj []) with
              | .obj acts =>
                match ageTime acts "feudalAge", ageTime acts "castleAge",
                    ageTime acts "imperialAge" with
                | .ok f, .ok c, .ok i =>
                  some (mkGameSummary kvs pkvs opponent_data f c i)
                | _, _, _ => none
              | _ => none) = _
  rw [h1]
  show (match pyIter (.arr ps) with
    | .error _ => none
    | .ok players =>
      match scanPlayers pid (none, none) players with
      | .error _ => none
      | .ok (player_data, opponent_data) =>
        match player_data with
        | none => none
        | some pkvs =>
          if pkvs.isEmpty then none
          else
            match pyGet pkvs "actions" (.obj []) with
            | .obj acts =>
              match ageTime acts "feudalAge", ageTime acts "castleAge",
                  ageTime acts "imperialAge" with
              | .ok f, .ok c, .ok i =>
                some (mkGameSummary kvs pkvs opponent_data f c i)
              | _, _, _ => none
            | _ => none) = _
  rw [show pyIter (.arr ps) = Except.ok ps from rfl]
  show (match scanPlayers pid (none, none) ps with
    | .error _ => none
    | .ok (player_data, opponent_data) =>
      match player_data with
      | none => none
      | some pkvs =>
        if pkvs.isEmpty then none
        else
          match pyGet pkvs "actions" (.obj []) with
          | .obj acts =>
            match ageTime acts "feudalAge", ageTime acts "castleAge",
                ageTime acts "imperialAge" with
            | .ok f, .ok c, .ok i =>
              some (mkGameSummary kvs pkvs opponent_data f c i)
            | _, _, _ => none
          | _ => none) = _
  rw [h2]
  show (if pkvs.isEmpty then none
    else
      match pyGet pkvs "actions" (.obj []) with
      | .obj acts =>
        match ageTime acts "feudalAge", ageTime acts "castleAge",
            ageTime acts "imperialAge" with
        | .ok f, .ok c, .ok i => some (mkGameSummary kvs pkvs od f c i)
        | _, _, _ => none
      | _ => none) = _
  rw [h3', h4]
  rfl

theorem ageTime_absent (acts : Jobj) (k : String)
    (h : jlookup acts k = none) : ageTime acts k = .ok none := by
  rw [ageTime, h]

theorem ageTime_head (acts : Jobj) (k : String) (t : JVal) (rest : List JVal)
    (h : jlookup acts k = some (.arr (t :: rest))) :
    ageTime acts k = .ok (some t) := by
  rw [ageTime, h]

theorem ageTime_empty_err (acts : Jobj) (k : String)
    (h : jlookup acts k = some (.arr [])) : ageTime acts k = .error () := by
  rw [ageTime, h]

/-- C8: when `parse_game_summary` reaches the found player's actions map, each
known age key (`feudalAge`, `castleAge`, `imperialAge`) is read as the FIRST
timestamp recorded under it, and a key absent from the map yields `none`
(Python `None`) for that timing — never `0` — while the parse still
succeeds. -/
theorem C8_age_transition_extraction (kvs : Jobj) (pid : String)
    (ps : List JVal) (pkvs : Jobj) (od : Option Jobj) (acts : Jobj)
    (fo co io : Option JVal)
    (h0 : kvs ≠ [])
    (h1 : jlookup kvs "players" = some (.arr ps))
    (h2 : scanPlayers pid (none, none) ps = .ok (some pkvs, od))
    (h3 : pkvs ≠ [])
    (h4 : pyGet pkvs "actions" (.obj []) = .obj acts)
    (hf : ageTime acts "feudalAge" = .ok fo)
    (hc : ageTime acts "castleAge" = .ok co)
    (hi : ageTime acts "imperialAge" = .ok io) :
    parse_game_summary (.obj kvs) pid =
      some (mkGameSummary kvs pkvs od fo co io) ∧
    (jlookup acts "feudalAge" = none → fo = none) ∧
    (∀ t rest, jlookup acts "feudalAge" = some (.arr (t :: rest)) → fo = some t) ∧
    (jlookup acts "castleAge" = none → co = none) ∧
    (∀ t rest, jlookup acts "castleAge" = some (.arr (t :: rest)) → co = some t) ∧
    (jlookup acts "imperialAge" = none → io = none) ∧
    (∀ t rest, jlookup acts "imperialAge" = some (.arr (t :: rest)) → io = some t) := by
  refine ⟨?_, ?_, ?_, ?_, ?_, ?_, ?_⟩
  · rw [parse_game_summary_reaches_actions kvs pid ps pkvs od acts h0 h1 h2 h3 h4,
      hf, hc, hi]
  · intro h
    have ha := ageTime_absent acts "feudalAge" h
    rw [hf] at ha
    injection ha
  · intro t rest h
    have ha := ageTime_head acts "feudalAge" t rest h
    rw [hf] at ha
    injection ha
  · intro h
    have ha := ageTime_absent acts "castleAge" h
    rw [hc] at ha
    injection ha
  · intro t rest h
    have ha := ageTime_head acts "castleAge" t rest h
    rw [hc] at ha
    injection ha
  · intro h
    have ha := ageTime_absent acts "imperialAge" h
    rw [hi] at ha
    injection ha
  · intro t rest h
    have ha := ageTime_head acts "imperialAge" t rest h
    rw [hi] at ha
    injection ha

/-- Witness for C8: `castleAge` recorded as `[700, 800]` reads `700`, while
the absent `feudalAge` and `imperialAge` keys read `None` — distinguishable
from an age reached at time `0`. -/
theorem C8_age_transition_extraction_witness :
    parse_game_summary (.obj [("gameId", .num 7), ("players", .arr [
      .obj [("profileId", .num 123),
            ("actions", .obj [("castleAge", .arr [.num 700, .num 800])])]])])
      "123" =
    some (mkGameSummary
      [("gameId", .num 7), ("players", .arr [
        .obj [("profileId", .num 123),
              ("actions", .obj [("castleAge", .arr [.num 700, .num 800])])]])]
      [("profileId", .num 123),
       ("actions", .obj [("castleAge", .arr [.num 700, .num 800])])]
      none none (some (.num 700)) none) :=
  (C8_age_transition_extraction
    [("gameId", .num 7), ("players", .arr [
      .obj [("profileId", .num 123),
            ("actions", .obj [("castleAge", .arr [.num 700, .num 800])])]])]
    "123"
    [.obj [("profileId", .num 123),
           ("actions", .obj [("castleAge", .arr [.num 700, .num 800])])]]
    [("profileId", .num 123),
     ("actions", .obj [("castleAge", .arr [.num 700, .num 800])])]
    none
    [("castleAge", .arr [.num 700, .num 800])]
    none (some (.num 700)) none
    (List.cons_ne_nil _ _) rfl rfl (List.cons_ne_nil _ _) rfl rfl rfl rfl).1

/-- C10: a known age key that is PRESENT but maps to an empty list raises
`IndexError` at `[0]`, the blanket handler catches it, and the whole summary
parse returns `None` — even though every other stage succeeded. -/
theorem C10_empty_timestamp_list_fails_whole_parse (kvs : Jobj) (pid : String)
    (ps : List JVal) (pkvs : Jobj) (od : Option Jobj) (acts : Jobj)
    (h0 : kvs ≠ [])
    (h1 : jlookup kvs "players" = some (.arr ps))
    (h2 : scanPlayers pid (none, none) ps = .ok (some pkvs, od))
    (h3 : pkvs ≠ [])
    (h4 : pyGet pkvs "actions" (.obj []) = .obj acts)
    (hfe : jlookup acts "feudalAge" = some (.arr [])) :
    parse_game_summary (.obj kvs) pid = none := by
  rw [parse_game_summary_reaches_actions kvs pid ps pkvs od acts h0 h1 h2 h3 h4,
    ageTime_empty_err acts "feudalAge" hfe]

/-- Witness for C10: `feudalAge: []` present in an otherwise parseable
payload makes the whole summary parse fail. -/
theorem C10_empty_timestamp_list_fails_whole_parse_witness :
    parse_game_summary (.obj [("players", .arr [
      .obj [("profileId", .num 123),
            ("actions", .obj [("feudalAge", .arr [])])]])]) "123" = none :=
  C10_empty_timestamp_list_fails_whole_parse
    [("players", .arr [
      .obj [("profileId", .num 123),
            ("actions", .obj [("feudalAge", .arr [])])]])]
    "123"
    [.obj [("profileId", .num 123),
           ("actions", .obj [("feudalAge", .arr [])])]]
    [("profileId", .num 123), ("actions", .obj [("feudalAge", .arr [])])]
    none
    [("feudalAge", .arr [])]
    (List.cons_ne_nil _ _) rfl rfl (List.cons_ne_nil _ _) rfl rfl

/-! ## Claims C1 and C4 -/

theorem analyze_performance_nonempty (gs : List Game) (h : gs.isEmpty = false) :
    analyze_performance gs = some {
      total_games := gs.length
      wins := (gs.filter fun g => JVal.beq g.player_result (.str "win")).length
      losses := (gs.length : ℤ) -
        ((gs.filter fun g => JVal.beq g.player_result (.str "win")).length : ℤ)
      win_rate := round1 (if gs.length > 0 then
        (((gs.filter fun g => JVal.beq g.player_result (.str "win")).length : ℚ))
          / (gs.length : ℚ) * 100 else 0)
      civilization_stats := addRate (tally Game.player_civ gs)
      map_stats := addRate (tally Game.map gs)
      avg_rating_change := round1
        (if !(gs.map fun g => jIntD g.player_rating_diff).isEmpty then
          (((gs.map fun g => jIntD g.player_rating_diff).sum : ℤ) : ℚ)
            / ((gs.map fun g => jIntD g.player_rating_diff).length : ℚ)
        else 0)
      current_rating := (gs.head?.map Game.player_rating).getD (.num 0) } := by
  rw [analyze_performance, h]
  rfl

/-- C1 counterexample: for the empty match list `analyze_performance` returns
the empty dict `{}` (embedded `none`), which carries NO `win_rate` entry at
all — it does not "yield winRatePercent equal to 0" as the claim states
(downstream readers only see `0` through their own `.get` defaulting). -/
theorem C1_counterexample : analyze_performance [] = none := rfl

/-- C1 amended: for an empty match list `analyze_performance` returns an
empty result carrying no statistics (and in particular no arithmetic is
attempted); for every non-empty list it returns statistics whose `win_rate`
is `100 * wins / totalMatches` rounded to one decimal place. -/
theorem C1_amended_winrate : analyze_performance [] = none ∧
    ∀ gs : List Game, gs ≠ [] →
      ∃ a, analyze_performance gs = some a ∧
        a.total_games = gs.length ∧
        a.wins = (gs.filter fun g => JVal.beq g.player_result (.str "win")).length ∧
        a.win_rate = round1
          (100 * ((gs.filter fun g =>
              JVal.beq g.player_result (.str "win")).length : ℚ)
            / (gs.length : ℚ)) := by
  refine ⟨rfl, ?_⟩
  intro gs hne
  have hie : gs.isEmpty = false := by
    cases gs with
    | nil => exact absurd rfl hne
    | cons a l => rfl
  have hpos : 0 < gs.length := List.length_pos.mpr hne
  rw [analyze_performance_nonempty gs hie]
  refine ⟨_, rfl, rfl, rfl, ?_⟩
  show round1 (if gs.length > 0 then
      (((gs.filter fun g => JVal.beq g.player_result (.str "win")).length : ℚ))
        / (gs.length : ℚ) * 100 else 0) = _
  rw [if_pos hpos]
  congr 1
  ring

/-- Witness for C1 (amended): one won match gives a present result whose
`win_rate` is the rounded `100 * wins / total`. -/
theorem C1_amended_winrate_witness :
    analyze_performance [sampleGame "A" "win" "m"] ≠ none ∧
    (analyze_performance [sampleGame "A" "win" "m"]).map Analysis.win_rate =
      some (round1 (100 *
        (([sampleGame "A" "win" "m"].filter fun g =>
            JVal.beq g.player_result (.str "win")).length : ℚ)
        / (([sampleGame "A" "win" "m"] : List Game).length : ℚ))) := by
  obtain ⟨a, ha, h1, h2, h3⟩ :=
    C1_amended_winrate.2 [sampleGame "A" "win" "m"] (List.cons_ne_nil _ _)
  constructor
  · rw [ha]
    exact Option.some_ne_none a
  · rw [ha, Option.map_some', h3]

theorem assocFind_addRate_rate (l : List (JVal × Nat × Nat)) (k : JVal) :
    ∀ cs, assocFind (addRate l) k = some cs →
      cs.win_rate = (cs.wins : ℚ) / (cs.games : ℚ) * 100 := by
  induction l with
  | nil => intro cs h; cases h
  | cons kv rest ih =>
    intro cs h
    rw [addRate, List.map_cons] at h
    rw [assocFind] at h
    by_cases hk : JVal.beq kv.1 k
    · rw [if_pos hk] at h
      injection h with h
      rw [← h]
    · rw [if_neg hk] at h
      exact ih cs h

/-- C4 counterexample: over three matches against faction "A" with one win,
the stored per-faction rate is the UNROUNDED `100/3`, while computing it
"identically to the overall winRatePercent" (rounded to one decimal, which is
exactly what the overall rate stores) gives `33.3 = 333/10 ≠ 100/3`. -/
theorem C4_counterexample :
    (analyze_performance gamesThirdWin).map
        (fun a => (assocFind a.civilization_stats (.str "A")).map CivStat.win_rate) =
      some (some (100 / 3)) ∧
    (analyze_performance gamesThirdWin).map Analysis.win_rate =
      some (333 / 10) ∧
    round1 (100 * (1 : ℚ) / 3) = 333 / 10 ∧
    (100 / 3 : ℚ) ≠ 333 / 10 := by
  refine ⟨?_, ?_, by norm_num [round1, roundHalfEven], by norm_num⟩
  · rw [analyze_performance_nonempty gamesThirdWin rfl, Option.map_some']
    have ht : tally Game.player_civ gamesThirdWin = [(.str "A", 3, 1)] := rfl
    rw [ht]
    have hA : (assocFind (addRate [(JVal.str "A", 3, 1)]) (JVal.str "A")).map
        CivStat.win_rate = some (((1 : ℕ) : ℚ) / ((3 : ℕ) : ℚ) * 100) := rfl
    rw [hA]
    norm_num
  · rw [analyze_performance_nonempty gamesThirdWin rfl, Option.map_some']
    have hw : (gamesThirdWin.filter fun g =>
        JVal.beq g.player_result (.str "win")).length = 1 := rfl
    have hl : gamesThirdWin.length = 3 := rfl
    rw [hw, hl]
    norm_num [round1, roundHalfEven]

/-- C4 amended: each `byFaction`/`byMap` entry stores the UNROUNDED
`100 * group wins / group games` (only the overall rate is rounded to one
decimal); the spec's scenario — two matches against "A" (one win, one loss)
and one win against "B" — still yields 50 and 100. -/
theorem C4_amended_group_winrate :
    (∀ (gs : List Game) (a : Analysis), analyze_performance gs = some a →
      (∀ k cs, assocFind a.civilization_stats k = some cs →
        cs.win_rate = 100 * (cs.wins : ℚ) / (cs.games : ℚ)) ∧
      (∀ k cs, assocFind a.map_stats k = some cs →
        cs.win_rate = 100 * (cs.wins : ℚ) / (cs.games : ℚ))) ∧
    (analyze_performance gamesScenarioAB).map
      (fun a => ((assocFind a.civilization_stats (.str "A")).map CivStat.win_rate,
                 (assocFind a.civilization_stats (.str "B")).map CivStat.win_rate)) =
      some (some 50, some 100) := by
  constructor
  · intro gs a ha
    have hie : gs.isEmpty = false := by
      cases hgs : gs with
      | nil => rw [hgs] at ha; cases ha
      | cons x l => rfl
    rw [analyze_performance_nonempty gs hie] at ha
    injection ha with ha
    constructor
    · intro k cs h
      rw [← ha] at h
      have := assocFind_addRate_rate (tally Game.player_civ gs) k cs h
      rw [this]
      ring
    · intro k cs h
      rw [← ha] at h
      have := assocFind_addRate_rate (tally Game.map gs) k cs h
      rw [this]
      ring
  · rw [analyze_performance_nonempty gamesScenarioAB rfl]
    rw [Option.map_some']
    have ht : tally Game.player_civ gamesScenarioAB =
        [(.str "A", 2, 1), (.str "B", 1, 1)] := rfl
    rw [ht]
    have hA : (assocFind (addRate [(JVal.str "A", 2, 1), (JVal.str "B", 1, 1)])
        (JVal.str "A")).map CivStat.win_rate =
        some (((1 : ℕ) : ℚ) / ((2 : ℕ) : ℚ) * 100) := rfl
    have hB : (assocFind (addRate [(JVal.str "A", 2, 1), (JVal.str "B", 1, 1)])
        (JVal.str "B")).map CivStat.win_rate =
        some (((1 : ℕ) : ℚ) / ((1 : ℕ) : ℚ) * 100) := rfl
    rw [hA, hB]
    norm_num

/-- Witness for C4 (amended): the "A" group of the scenario aggregation
satisfies the unrounded `100 * wins / games` formula. -/
theorem C4_amended_group_winrate_witness :
    assocFind (addRate (tally Game.player_civ gamesScenarioAB)) (.str "A") =
      some ⟨2, 1, ((1 : ℕ) : ℚ) / ((2 : ℕ) : ℚ) * 100⟩ ∧
    ((1 : ℕ) : ℚ) / ((2 : ℕ) : ℚ) * 100 = 100 * ((1 : ℕ) : ℚ) / ((2 : ℕ) : ℚ) := by
  constructor
  · rfl
  · obtain ⟨hciv, hmap⟩ := C4_amended_group_winrate.1 gamesScenarioAB _
      (analyze_performance_nonempty gamesScenarioAB rfl)
    exact hciv (.str "A") ⟨2, 1, ((1 : ℕ) : ℚ) / ((2 : ℕ) : ℚ) * 100⟩ rfl

/-! ## Claims C3 and C9 -/

theorem enrichItem_ok (cat : Catalog) (item : Jobj) (h : iconOk item = true) :
    enrichItem cat item = .ok (setKey item "name" (.str (enrichedName cat item))) := by
  rw [enrichItem, enrichedName, iconOk] at *
  cases hicon : pyGet item "icon" (.str "") with
  | str s =>
    cases hpb : JVal.pyTruthy ((jlookup item "pbgid").getD .null) with
    | true =>
      by_cases hs : s = ""
      · subst hs
        simp [hicon, hpb, JVal.pyTruthy, get_name]
        cases lookupEntity cat ((jlookup item "pbgid").getD .null) <;> rfl
      · have hst : JVal.pyTruthy (.str s) = true := by simp [JVal.pyTruthy, hs]
        simp [hicon, hpb, hst, get_name]
        cases lookupEntity cat ((jlookup item "pbgid").getD .null) with
        | some e => rfl
        | none =>
          rw [if_neg hs]
          by_cases hslug : iconSlug s = ""
          · simp [hslug]
            rfl
          · simp [hslug]
            rfl
    | false =>
      by_cases hs : s = ""
      · subst hs
        simp [hicon, hpb, JVal.pyTruthy]
        rfl
      · have hst : JVal.pyTruthy (.str s) = true := by simp [JVal.pyTruthy, hs]
        simp [hicon, hpb, hst]
        rw [if_neg hs]
        rfl
  | null =>
    rw [hicon] at h
    cases hpb : JVal.pyTruthy ((jlookup item "pbgid").getD .null) <;>
      simp [hicon, hpb, JVal.pyTruthy, get_name] <;>
      cases lookupEntity cat ((jlookup item "pbgid").getD .null) <;> rfl
  | bool b =>
    rw [hicon] at h
    have hb : b = false := by
      cases b
      · rfl
      · simp [JVal.pyTruthy] at h
    subst hb
    cases hpb : JVal.pyTruthy ((jlookup item "pbgid").getD .null) <;>
      simp [hicon, hpb, JVal.pyTruthy, get_name] <;>
      cases lookupEntity cat ((jlookup item "pbgid").getD .null) <;> rfl
  | num n =>
    rw [hicon] at h
    have hn : n = 0 := by
      by_contra hn
      simp [JVal.pyTruthy, hn] at h
    subst hn
    cases hpb : JVal.pyTruthy ((jlookup item "pbgid").getD .null) <;>
      simp [hicon, hpb, JVal.pyTruthy, get_name] <;>
      cases lookupEntity cat ((jlookup item "pbgid").getD .null) <;> rfl
  | arr xs =>
    rw [hicon] at h
    have hx : xs = [] := by
      cases xs
      · rfl
      · simp [JVal.pyTruthy] at h
    subst hx
    cases hpb : JVal.pyTruthy ((jlookup item "pbgid").getD .null) <;>
      simp [hicon, hpb, JVal.pyTruthy, get_name] <;>
      cases lookupEntity cat ((jlookup item "pbgid").getD .null) <;> rfl
  | obj kvs =>
    rw [hicon] at h
    have hx : kvs = [] := by
      cases kvs
      · rfl
      · simp [JVal.pyTruthy] at h
    subst hx
    cases hpb : JVal.pyTruthy ((jlookup item "pbgid").getD .null) <;>
      simp [hicon, hpb, JVal.pyTruthy, get_name] <;>
      cases lookupEntity cat ((jlookup item "pbgid").getD .null) <;> rfl

theorem mapM_ok_of_forall {α β : Type} (f : α → Except Unit β) (g : α → β) :
    ∀ l : List α, (∀ x ∈ l, f x = .ok (g x)) → l.mapM f = .ok (l.map g) := by
  intro l h
  induction l with
  | nil => rfl
  | cons x xs ih =>
    rw [List.mapM_cons, h x (List.mem_cons_self _ _),
      ih fun y hy => h y (List.mem_cons_of_mem _ hy)]
    rfl

/-- C3 counterexample: an item with the truthy entity id `5` that resolves in
no catalog and carries no icon is named `"Unknown (5)"`, not the literal
`"Unknown"` the claim's third fallback step states. -/
theorem C3_counterexample :
    enrich_build_order [] [[("pbgid", .num 5)]] =
      .ok [[("pbgid", .num 5), ("name", .str "Unknown (5)")]] ∧
    ("Unknown (5)" : String) ≠ "Unknown" := ⟨rfl, by decide⟩

/-- C3 amended: `enrich_build_order` is pure and total on timeline entries
whose icon field, when truthy, is a string; it returns one output record per
input record in input order, each the input record plus a non-null `name`
chosen by: the Entity Catalog name when the entry carries a TRUTHY entity id
that resolves; otherwise the non-empty icon slug; otherwise `"Unknown (<id>)"`
when a truthy unresolved entity id is present and `"Unknown"` when it is
not. -/
theorem C3_amended_enrich_names :
    ∀ (cat : Catalog) (bo : List Jobj),
      (∀ item ∈ bo, iconOk item = true) →
      enrich_build_order cat bo =
        .ok (bo.map fun item => setKey item "name" (.str (enrichedName cat item))) := by
  intro cat bo h
  exact mapM_ok_of_forall _ _ bo fun item hi => enrichItem_ok cat item (h item hi)

/-- Witness for C3 (amended): a four-item build order exercising catalog
resolution, the icon fallback, the `"Unknown (<id>)"` case and the
`"Unknown"` case. -/
theorem C3_amended_enrich_names_witness :
    enrich_build_order
      [(.num 7, { pbgid := .num 7, name := "Archer", base_id := "archer",
                  entity_type := "unit", civs := .arr [], age := .num 1 })]
      [[("pbgid", .num 7)],
       [("pbgid", .num 5), ("icon", .str "icons/units/horse_man")],
       [("pbgid", .num 5)],
       [("icon", .num 0)]] =
      .ok [[("pbgid", .num 7), ("name", .str "Archer")],
           [("pbgid", .num 5), ("icon", .str "icons/units/horse_man"),
            ("name", .str "horse man")],
           [("pbgid", .num 5), ("name", .str "Unknown (5)")],
           [("icon", .num 0), ("name", .str "Unknown")]] := by
  have h := C3_amended_enrich_names
      [(.num 7, { pbgid := .num 7, name := "Archer", base_id := "archer",
                  entity_type := "unit", civs := .arr [], age := .num 1 })]
      [[("pbgid", .num 7)],
       [("pbgid", .num 5), ("icon", .str "icons/units/horse_man")],
       [("pbgid", .num 5)],
       [("icon", .num 0)]]
      (by
        intro item hi
        rcases List.mem_cons.mp hi with rfl | hi
        · rfl
        · rcases List.mem_cons.mp hi with rfl | hi
          · rfl
          · rcases List.mem_cons.mp hi with rfl | hi
            · rfl
            · rcases List.mem_cons.mp hi with rfl | hi
              · rfl
              · cases hi)
  exact h

/-- C9: `get_name` with an identifier missing from the catalog and a FALSY
fallback (the empty string, or `None`) returns the synthetic
`"Unknown (<id>)"`, never the empty string — Python's `fallback or ...`
treats both falsy fallbacks as absent. -/
theorem C9_get_name_falsy_fallback :
    ∀ (cat : Catalog) (pbgid : JVal),
      lookupEntity cat pbgid = none →
      get_name cat pbgid (some "") = "Unknown (" ++ JVal.pyStr pbgid ++ ")" ∧
      get_name cat pbgid none = "Unknown (" ++ JVal.pyStr pbgid ++ ")" := by
  intro cat pbgid h
  constructor <;> simp [get_name, h]

/-- Witness for C9: the empty catalog misses id `5`; both falsy fallbacks
produce `"Unknown (5)"`. -/
theorem C9_get_name_falsy_fallback_witness :
    get_name [] (.num 5) (some "") = "Unknown (5)" ∧
    get_name [] (.num 5) none = "Unknown (5)" := by
  have h := C9_get_name_falsy_fallback [] (.num 5) rfl
  exact ⟨h.1, h.2⟩

/-! ## Claims C5 and C6 -/

theorem jlookup_map_snd (f : String → JVal → JVal) (l : Jobj) (k : String) :
    jlookup (l.map fun kv => (kv.1, f kv.1 kv.2)) k = (jlookup l k).map (f k) := by
  induction l with
  | nil => rfl
  | cons kv rest ih =>
    rw [List.map_cons, jlookup, jlookup]
    by_cases hk : kv.1 = k
    · subst hk
      simp
    · simp [hk, ih]

theorem normalize_as_maps (report : Jobj) :
    normalize_coaching_report report =
      (report.map fun kv =>
        (kv.1, if kv.1 ∈ array_fields then coerceArrayField kv.2 else kv.2)).map
        fun kv => (kv.1, if kv.1 = "improvements" then improvementsPass kv.2 else kv.2) := by
  have h1 : (fun kv : String × JVal =>
      if kv.1 ∈ array_fields then (kv.1, coerceArrayField kv.2) else kv) =
      fun kv => (kv.1, if kv.1 ∈ array_fields then coerceArrayField kv.2 else kv.2) := by
    funext kv
    by_cases h : kv.1 ∈ array_fields
    · rw [if_pos h, if_pos h]
    · rw [if_neg h, if_neg h]
  have h2 : (fun kv : String × JVal =>
      if kv.1 = "improvements" then
        match kv.2 with
        | .arr xs => (kv.1, JVal.arr (xs.filterMap normImprovementItem))
        | v => (kv.1, v)
      else kv) =
      fun kv => (kv.1, if kv.1 = "improvements" then improvementsPass kv.2 else kv.2) := by
    funext kv
    by_cases h : kv.1 = "improvements"
    · rw [if_pos h, if_pos h]
      cases hv : kv.2 <;> rfl
    · rw [if_neg h, if_neg h]
  rw [normalize_coaching_report, h1, h2]

theorem jlookup_normalize (report : Jobj) (k : String) :
    jlookup (normalize_coaching_report report) k =
      (jlookup report k).map fun v =>
        if k = "improvements" then
          improvementsPass (if k ∈ array_fields then coerceArrayField v else v)
        else if k ∈ array_fields then coerceArrayField v else v := by
  rw [normalize_as_maps,
    jlookup_map_snd fun a b => if a = "improvements" then improvementsPass b else b,
    jlookup_map_snd fun a b => if a ∈ array_fields then coerceArrayField b else b,
    Option.map_map]
  rfl

theorem coerce_isArr (v : JVal) : ∃ xs, coerceArrayField v = .arr xs := by
  cases v with
  | str s =>
    rw [coerceArrayField]
    split <;> exact ⟨_, rfl⟩
  | null => exact ⟨_, rfl⟩
  | bool b => exact ⟨_, rfl⟩
  | num n => exact ⟨_, rfl⟩
  | arr xs => exact ⟨_, rfl⟩
  | obj kvs => exact ⟨_, rfl⟩

/-- C5 counterexample: an `improvements` value that arrives as a single
string without newlines is NOT left as the single-element string list the
claim's rules produce — the second normalization pass rewraps it as an object
`{"issue": ..., "fix": "See coaching notes"}`. -/
theorem C5_counterexample :
    normalize_coaching_report [("improvements", .str "practice more")] =
      [("improvements", .arr [.obj [("issue", .str "practice more"),
        ("fix", .str "See coaching notes")]])] ∧
    JVal.arr [.obj [("issue", .str "practice more"),
        ("fix", .str "See coaching notes")]] ≠
      .arr [.str "practice more"] := by
  refine ⟨rfl, ?_⟩
  simp

/-- C5 amended: after `normalize_coaching_report`, every expected list-typed
field present in the report is a list, produced by the claimed rules (string
with newlines split into its non-blank lines with bullet characters stripped,
other strings wrapped, a mapping's values taken, other scalars wrapped as
their string form) — EXCEPT that `improvements` is additionally coerced to a
list of objects: string elements become
`{"issue": s, "fix": "See coaching notes"}` and elements that are neither
strings nor mappings are dropped. -/
theorem C5_amended_field_normalization :
    ∀ (report : Jobj) (k : String), k ∈ array_fields →
      ∀ v, jlookup report k = some v →
        jlookup (normalize_coaching_report report) k =
          some (if k = "improvements" then improvementsPass (coerceArrayField v)
                else coerceArrayField v) ∧
        ∃ xs, (if k = "improvements" then improvementsPass (coerceArrayField v)
               else coerceArrayField v) = .arr xs := by
  intro report k hk v hv
  constructor
  · rw [jlookup_normalize, hv, Option.map_some']
    by_cases hki : k = "improvements"
    · rw [if_pos hki, if_pos hki, if_pos hk]
    · rw [if_neg hki, if_neg hki, if_pos hk]
  · obtain ⟨xs, hxs⟩ := coerce_isArr v
    by_cases hki : k = "improvements"
    · rw [if_pos hki, hxs, improvementsPass]
      exact ⟨_, rfl⟩
    · rw [if_neg hki]
      exact ⟨xs, hxs⟩

/-- Witness for C5 (amended): a plain-string `improvements` field ends up as
a one-object list. -/
theorem C5_amended_field_normalization_witness :
    jlookup (normalize_coaching_report [("improvements", .str "do drills")])
      "improvements" =
      some (.arr [.obj [("issue", .str "do drills"),
        ("fix", .str "See coaching notes")]]) := by
  have h := C5_amended_field_normalization [("improvements", .str "do drills")]
    "improvements" (by decide) (.str "do drills") rfl
  rw [h.1]
  rfl

/-- C6: the rating letter the template report embeds equals the letter
re-derived from the summary's win rate alone by the spec's 70/60/50/40
thresholds; the template report is a plain function of the summary, hence
deterministic. -/
theorem C6_rating_letter_round_trip :
    ∀ analysis : Option Analysis,
      jlookup (generate_template_report analysis) "rating" =
        some (.str (ratingLetterSpec (match analysis with
          | some a => a.win_rate
          | none => 0))) := by
  intro analysis
  cases analysis <;> rfl
